import Mathlib

/-!
Shallow embedding of the SMS rental manager (src/sms_manager.py).

The transport layer (aiohttp) is abstracted: an HTTP exchange is modelled by the
`HttpResponse` record (status code, content type, raw body, and the result of
attempting to parse the body as JSON).  Each adapter operation is modelled as a
pure function of the already-parsed vendor response (a `Json` value), mirroring
the Python handler code that runs after `_make_request` returns.  Python
exceptions are modelled with `Except PyErr`: the typed SMS error taxonomy is
`SMSError`, and untyped Python failures that the code can also raise (dictionary
key lookups) are `PyErr.keyError`.  Wall-clock time in the polling loop is
modelled by an explicit elapsed counter that advances by `check_interval` at
every sleep; vendor responses for successive polls are supplied as a list.
-/

/-- JSON values, as produced by parsing a vendor response body. -/
inductive Json where
  | null : Json
  | bool : Bool → Json
  | num : Int → Json
  | str : String → Json
  | arr : List Json → Json
  | obj : List (String × Json) → Json

/-- Python `resp.get(key)` on a parsed JSON object: the value when the key is
present, otherwise `none` (also `none` when the receiver is not an object). -/
def Json.get : Json → String → Option Json
  | .obj fs, k => fs.lookup k
  | _, _ => none

/-- Python truthiness of a JSON value (`if value:`). -/
def Json.truthy : Json → Bool
  | .null => false
  | .bool b => b
  | .num n => n != 0
  | .str s => s != ""
  | .arr l => !l.isEmpty
  | .obj fs => !fs.isEmpty

/-- The string content of a JSON value when it is a string, else `none`.  Used
for fields the vendors send as strings (codes, message texts, timestamps). -/
def Json.asStr? : Json → Option String
  | .str s => some s
  | _ => none

mutual

/-- Rendering of a JSON value into a Python f-string (`str()` semantics:
`None`, `True`/`False`, bare numbers and strings; containers are rendered
structurally, without the quoting details of Python repr, which no theorem
below depends on). -/
def Json.pyStr : Json → String
  | .null => "None"
  | .bool true => "True"
  | .bool false => "False"
  | .num n => toString n
  | .str s => s
  | .arr l => "[" ++ Json.pyStrList l ++ "]"
  | .obj fs => "\x7b" ++ Json.pyStrObj fs ++ "\x7d"

/-- Comma-separated rendering of a JSON array body. -/
def Json.pyStrList : List Json → String
  | [] => ""
  | [j] => Json.pyStr j
  | j :: js => Json.pyStr j ++ ", " ++ Json.pyStrList js

/-- Comma-separated rendering of a JSON object body. -/
def Json.pyStrObj : List (String × Json) → String
  | [] => ""
  | [(k, v)] => k ++ ": " ++ Json.pyStr v
  | (k, v) :: fs => k ++ ": " ++ Json.pyStr v ++ ", " ++ Json.pyStrObj fs

end

/-- `ProviderType` enum of the source. -/
inductive ProviderType where
  | sms_man : ProviderType
  | five_sim : ProviderType
  | vak_sms : ProviderType
deriving DecidableEq

/-- `RentStatus` enum of the source. -/
inductive RentStatus where
  | waiting : RentStatus
  | received : RentStatus
  | finished : RentStatus
  | timeout : RentStatus
  | cancelled : RentStatus
  | unknown : RentStatus
deriving DecidableEq

/-- `SMSOrder` pydantic model of the source.  `created_at` (a wall-clock
timestamp in the source, filled by `datetime.now()`) is modelled as a `Nat`
supplied by the caller; `expiration_time` stores the raw vendor string. -/
structure SMSOrder where
  order_id : String
  phone_number : String
  country : String
  service : String
  provider : ProviderType
  status : RentStatus := RentStatus.waiting
  sms_text : Option String := none
  sms_code : Option String := none
  created_at : Nat := 0
  expiration_time : Option String := none
deriving DecidableEq

/-- The typed SMS error taxonomy of the source (`SMSException` subclasses),
each carrying its human-readable message. -/
inductive SMSError where
  | balanceError : String → SMSError
  | noNumberError : String → SMSError
  | apiRequestError : String → SMSError
deriving DecidableEq

/-- A Python exception as raised by the modelled code: either a typed error of
the SMS taxonomy, a dictionary `KeyError` (raised by `resp[key]` on a missing
key), or a `json.JSONDecodeError` escaping `response.json()`. -/
inductive PyErr where
  | sms : SMSError → PyErr
  | keyError : String → PyErr
  | jsonDecodeError : PyErr
deriving DecidableEq

/-- Python truthiness of the `Optional[str]` field `order.sms_code`:
present and non-empty. -/
def smsCodeTruthy (o : SMSOrder) : Bool :=
  match o.sms_code with
  | some s => s != ""
  | none => false

/-- One HTTP exchange as seen by `_make_request`: the response status code,
declared content type, raw body text, and the result of parsing the body as
JSON (`none` when the body is not valid JSON). -/
structure HttpResponse where
  status : Nat
  content_type : String
  body : String
  body_json : Option Json

/-- Substring occurrence over character lists, for Python `needle in haystack`. -/
def strContainsAux (needle : List Char) : List Char → Bool
  | [] => needle.isEmpty
  | c :: rest => needle.isPrefixOf (c :: rest) || strContainsAux needle rest

/-- Python `needle in haystack` on strings. -/
def strContains (hay needle : String) : Bool :=
  strContainsAux needle.toList hay.toList

/-- `BaseSMSProvider._make_request`, after the transport library has produced a
response: status codes at or above 400 raise `APIRequestError` carrying the
status and raw body; a JSON content type requires a JSON body (an unparseable
one raises `json.JSONDecodeError`, uncaught in the source); any other content
type is parsed best-effort, falling back to a single-key object holding the raw
text.  Transport-level failures (`aiohttp.ClientError`), which the source also
maps to `APIRequestError`, happen before a response exists and are outside this
record-level model. -/
def make_request (r : HttpResponse) : Except PyErr Json :=
  if 400 ≤ r.status then
    .error (.sms (.apiRequestError ("API returned " ++ toString r.status ++ ": " ++ r.body)))
  else if strContains r.content_type "application/json" then
    match r.body_json with
    | some j => .ok j
    | none => .error .jsonDecodeError
  else
    match r.body_json with
    | some j => .ok j
    | none => .ok (.obj [("text_response", .str r.body)])

namespace SMSManProvider

/-- `SMSManProvider.rent_number`, applied to the parsed rent response.  The
source first checks for an `error_code` key (typed failure carrying the vendor
message); otherwise it builds the order from `resp["request_id"]` and
`resp["number"]`, whose absence raises a plain `KeyError`. -/
def rent_number (country service : String) (duration : Int) (now : Nat)
    (resp : Json) : Except PyErr SMSOrder :=
  if (resp.get "error_code").isSome then
    .error (.sms (.apiRequestError
      ("SMS-Man Error: " ++ ((resp.get "error_msg").getD Json.null).pyStr)))
  else
    match resp.get "request_id" with
    | none => .error (.keyError "request_id")
    | some rid =>
      match resp.get "number" with
      | none => .error (.keyError "number")
      | some num =>
        .ok { order_id := rid.pyStr, phone_number := num.pyStr,
              country := country, service := service,
              provider := ProviderType.sms_man, created_at := now }

/-- `SMSManProvider.check_sms`: when the parsed response is a non-empty list,
copy `text`/`code` of its last element into the order and set status Received;
otherwise return the order unchanged. -/
def check_sms (order : SMSOrder) (resp : Json) : SMSOrder :=
  match resp with
  | .arr (x :: xs) =>
    { order with
      sms_text := (((x :: xs).getLast (List.cons_ne_nil x xs)).get "text").bind Json.asStr?,
      sms_code := (((x :: xs).getLast (List.cons_ne_nil x xs)).get "code").bind Json.asStr?,
      status := RentStatus.received }
  | _ => order

/-- `SMSManProvider.cancel_rent`: issues the set-status request and returns
`True` whenever the HTTP call itself succeeded. -/
def cancel_rent (order_id : String) (r : HttpResponse) : Except PyErr Bool :=
  (make_request r).map fun _ => true

end SMSManProvider

namespace FiveSimProvider

/-- `FiveSimProvider.rent_number`, applied to the parsed rent response: a
response without an `id` key is a typed hard failure; otherwise the order is
built from `resp["id"]`, `resp["phone"]` (`KeyError` when absent) and the
optional `expires` timestamp. -/
def rent_number (country service : String) (duration : Int) (now : Nat)
    (resp : Json) : Except PyErr SMSOrder :=
  match resp.get "id" with
  | none => .error (.sms (.apiRequestError ("5SIM Failed: " ++ resp.pyStr)))
  | some idj =>
    match resp.get "phone" with
    | none => .error (.keyError "phone")
    | some ph =>
      .ok { order_id := idj.pyStr, phone_number := ph.pyStr,
            country := country, service := service,
            provider := ProviderType.five_sim, created_at := now,
            expiration_time := (resp.get "expires").bind Json.asStr? }

/-- First half of `FiveSimProvider.check_sms`: `resp.get("sms", [])`; when
that list is non-empty, copy `text`/`code` of its last element into the order
and set status Received. -/
def sms_step (order : SMSOrder) (resp : Json) : SMSOrder :=
  match (resp.get "sms").getD (Json.arr []) with
  | .arr (x :: xs) =>
    { order with
      sms_text := (((x :: xs).getLast (List.cons_ne_nil x xs)).get "text").bind Json.asStr?,
      sms_code := (((x :: xs).getLast (List.cons_ne_nil x xs)).get "code").bind Json.asStr?,
      status := RentStatus.received }
  | _ => order

/-- `FiveSimProvider.check_sms`: run `sms_step`, then, when the response
status field equals the string FINISHED, set status Finished (in the source
this second assignment runs after and thus overrides the Received one). -/
def check_sms (order : SMSOrder) (resp : Json) : SMSOrder :=
  match resp.get "status" with
  | some (.str "FINISHED") => { sms_step order resp with status := RentStatus.finished }
  | _ => sms_step order resp

/-- `FiveSimProvider.cancel_rent`: calls the finish endpoint and returns `True`
whenever the HTTP call itself succeeded. -/
def cancel_rent (order_id : String) (r : HttpResponse) : Except PyErr Bool :=
  (make_request r).map fun _ => true

end FiveSimProvider

namespace VakSMSProvider

/-- `VakSMSProvider.rent_number`, applied to the parsed rent response: without
an `idNum` key the vendor error value is mapped to the typed taxonomy
(`no_numbers` to NoNumberError, `no_balance` to BalanceError, anything else,
including an absent value defaulted to the string `Unknown error`, to
APIRequestError); with `idNum` present the order is built from `resp["idNum"]`
and `resp["tel"]` (`KeyError` when `tel` is absent). -/
def rent_number (country service : String) (duration : Int) (now : Nat)
    (resp : Json) : Except PyErr SMSOrder :=
  match resp.get "idNum" with
  | none =>
    match (resp.get "error").getD (Json.str "Unknown error") with
    | .str "no_numbers" => .error (.sms (.noNumberError "Vak-SMS: No numbers available"))
    | .str "no_balance" => .error (.sms (.balanceError "Vak-SMS: Insufficient balance"))
    | err => .error (.sms (.apiRequestError ("Vak-SMS Error: " ++ err.pyStr)))
  | some idn =>
    match resp.get "tel" with
    | none => .error (.keyError "tel")
    | some tel =>
      .ok { order_id := idn.pyStr, phone_number := tel.pyStr,
            country := country, service := service,
            provider := ProviderType.vak_sms, created_at := now }

/-- `VakSMSProvider.check_sms`: when the response carries a truthy `smsCode`,
store it as both the code and the text and set status Received; otherwise
return the order unchanged. -/
def check_sms (order : SMSOrder) (resp : Json) : SMSOrder :=
  match resp.get "smsCode" with
  | some v =>
    if v.truthy then
      { order with sms_code := v.asStr?, status := RentStatus.received,
                   sms_text := v.asStr? }
    else order
  | none => order

/-- `VakSMSProvider.cancel_rent`: sends status end and returns `True` whenever
the HTTP call itself succeeded. -/
def cancel_rent (order_id : String) (r : HttpResponse) : Except PyErr Bool :=
  (make_request r).map fun _ => true

end VakSMSProvider

/-- Observable events of one `wait_for_code` run: a `check_sms` call, a sleep
of one `check_interval`, or a `cancel_rent` call (which the loop never issues;
it is in the alphabet so that its absence is a provable statement). -/
inductive WaitEvent where
  | check : WaitEvent
  | sleep : WaitEvent
  | cancel : WaitEvent
deriving DecidableEq

/-- The loop body of `SMSManager.wait_for_code`.  `check` is the bound
provider adapter, `responses` the successive parsed vendor poll responses,
`elapsed` the wall-clock seconds spent so far (each sleep adds
`check_interval`; the source measures `datetime.now() - start_time`).  Returns
the final order together with the trace of events, or `none` when the supplied
response list runs out while the loop would still be polling (the source has a
single while-condition; it is split here over the two list shapes, with the
same deadline test and the same Timeout stamping in both). -/
def waitLoop (check : SMSOrder → Json → SMSOrder)
    (timeout_seconds check_interval : Int) :
    List Json → Int → SMSOrder → Option (SMSOrder × List WaitEvent)
  | [], elapsed, order =>
    if elapsed < timeout_seconds then
      none
    else
      some ({ order with status := RentStatus.timeout }, [])
  | r :: rs, elapsed, order =>
    if elapsed < timeout_seconds then
      let o := check order r
      if o.status = RentStatus.received ∨ smsCodeTruthy o = true then
        some (o, [WaitEvent.check])
      else
        match waitLoop check timeout_seconds check_interval rs (elapsed + check_interval) o with
        | none => none
        | some (o2, tr) => some (o2, WaitEvent.check :: WaitEvent.sleep :: tr)
    else
      some ({ order with status := RentStatus.timeout }, [])

/-- `SMSManager.wait_for_code`: run the polling loop from elapsed time zero.
The source loops while elapsed time is strictly below `timeout_seconds`, calls
`check_sms`, returns the updated order as soon as its status is Received or its
code is truthy, sleeps `check_interval` otherwise, and after the loop forces
status Timeout and returns the order. -/
def wait_for_code (check : SMSOrder → Json → SMSOrder) (order : SMSOrder)
    (timeout_seconds check_interval : Int) (responses : List Json) :
    Option (SMSOrder × List WaitEvent) :=
  waitLoop check timeout_seconds check_interval responses 0 order

/-- Orders reachable through the public operations: produced by a successful
rent call of one of the three adapters, updated by an adapter check call on an
arbitrary vendor response, or stamped Timeout by the polling loop (the only
mutation `wait_for_code` itself performs). -/
inductive Reachable : SMSOrder → Prop where
  | rentSmsMan (c s : String) (d : Int) (now : Nat) (resp : Json) (o : SMSOrder)
      (h : SMSManProvider.rent_number c s d now resp = Except.ok o) : Reachable o
  | rentFiveSim (c s : String) (d : Int) (now : Nat) (resp : Json) (o : SMSOrder)
      (h : FiveSimProvider.rent_number c s d now resp = Except.ok o) : Reachable o
  | rentVakSms (c s : String) (d : Int) (now : Nat) (resp : Json) (o : SMSOrder)
      (h : VakSMSProvider.rent_number c s d now resp = Except.ok o) : Reachable o
  | checkSmsMan (resp : Json) (o : SMSOrder) (h : Reachable o) :
      Reachable (SMSManProvider.check_sms o resp)
  | checkFiveSim (resp : Json) (o : SMSOrder) (h : Reachable o) :
      Reachable (FiveSimProvider.check_sms o resp)
  | checkVakSms (resp : Json) (o : SMSOrder) (h : Reachable o) :
      Reachable (VakSMSProvider.check_sms o resp)
  | waitTimeout (o : SMSOrder) (h : Reachable o) :
      Reachable { o with status := RentStatus.timeout }

/-- Helper: `Except.map (fun _ => true)` can only succeed with `true`. -/
theorem map_const_true_ok {x : Except PyErr Json} {b : Bool}
    (h : x.map (fun _ => true) = Except.ok b) : b = true := by
  cases x with
  | error e => simp [Except.map] at h
  | ok j =>
    simp [Except.map] at h
    exact h

/-- Claim C8 (confirmed): `_make_request` raises the request-error kind
carrying the HTTP status and raw body for every status at or above 400, and on
success without a JSON content type it attempts a JSON parse of the raw text,
returning a single-key structure holding the raw text when that parse fails. -/
theorem make_request_spec (r : HttpResponse) :
    (400 ≤ r.status →
      make_request r = Except.error (PyErr.sms (SMSError.apiRequestError
        ("API returned " ++ toString r.status ++ ": " ++ r.body)))) ∧
    (r.status < 400 → strContains r.content_type "application/json" = false →
      r.body_json = none →
      make_request r = Except.ok (Json.obj [("text_response", Json.str r.body)])) ∧
    (r.status < 400 → strContains r.content_type "application/json" = false →
      ∀ j, r.body_json = some j → make_request r = Except.ok j) := by
  refine ⟨?_, ?_, ?_⟩
  · intro h
    unfold make_request
    rw [if_pos h]
  · intro h1 h2 h3
    unfold make_request
    rw [if_neg (by omega), if_neg (by simp [h2]), h3]
  · intro h1 h2 j h3
    unfold make_request
    rw [if_neg (by omega), if_neg (by simp [h2]), h3]

/-- Witness for C8: a 404 with body text raises the typed request error with
status and body in the message; a 200 text/plain response with a non-JSON body
is wrapped into the single-key structure. -/
theorem make_request_spec_witness :
    make_request ⟨404, "text/html", "Not Found", none⟩ =
      Except.error (PyErr.sms (SMSError.apiRequestError "API returned 404: Not Found")) ∧
    make_request ⟨200, "text/plain", "ACCESS_NUMBER 123", none⟩ =
      Except.ok (Json.obj [("text_response", Json.str "ACCESS_NUMBER 123")]) :=
  ⟨(make_request_spec _).1 (by decide),
   (make_request_spec _).2.1 (by decide) (by decide) rfl⟩

/-- Claim C10 (confirmed): every non-raising execution of `cancel_rent`
returns `True`, for all three providers; the boolean never conveys more than
the HTTP call having succeeded. -/
theorem cancel_rent_always_true (oid1 oid2 oid3 : String) (r : HttpResponse)
    (b1 b2 b3 : Bool)
    (h1 : SMSManProvider.cancel_rent oid1 r = Except.ok b1)
    (h2 : FiveSimProvider.cancel_rent oid2 r = Except.ok b2)
    (h3 : VakSMSProvider.cancel_rent oid3 r = Except.ok b3) :
    b1 = true ∧ b2 = true ∧ b3 = true :=
  ⟨map_const_true_ok h1, map_const_true_ok h2, map_const_true_ok h3⟩

/-- Witness for C10: all three cancels on a successful HTTP exchange return
`Except.ok true`, so the theorem applies with every hypothesis discharged. -/
theorem cancel_rent_always_true_witness : true = true ∧ true = true ∧ true = true :=
  cancel_rent_always_true "1" "2" "3"
    ⟨200, "application/json", "1", some (Json.num 1)⟩ true true true rfl rfl rfl

/-- Unfolding lemma: one loop iteration while the deadline has not passed. -/
theorem waitLoop_cons (check : SMSOrder → Json → SMSOrder) (t i : Int)
    (r : Json) (rs : List Json) (elapsed : Int) (order : SMSOrder)
    (h : elapsed < t) :
    waitLoop check t i (r :: rs) elapsed order =
      if (check order r).status = RentStatus.received ∨
          smsCodeTruthy (check order r) = true then
        some (check order r, [WaitEvent.check])
      else
        match waitLoop check t i rs (elapsed + i) (check order r) with
        | none => none
        | some (o2, tr) => some (o2, WaitEvent.check :: WaitEvent.sleep :: tr) := by
  simp only [waitLoop]
  rw [if_pos h]

/-- Unfolding lemma: once the deadline has passed the loop stops and stamps
Timeout, whatever responses remain. -/
theorem waitLoop_stop (check : SMSOrder → Json → SMSOrder) (t i : Int)
    (responses : List Json) (elapsed : Int) (order : SMSOrder)
    (h : ¬ elapsed < t) :
    waitLoop check t i responses elapsed order =
      some ({ order with status := RentStatus.timeout }, []) := by
  cases responses <;> simp only [waitLoop] <;> rw [if_neg h]

/-- Claim C9 (confirmed): with a non-positive `timeout_seconds` the polling
loop body never runs: no check, no sleep, and the returned order is the input
order with status forced to Timeout, whatever status or code it carried. -/
theorem wait_nonpositive_timeout (check : SMSOrder → Json → SMSOrder)
    (order : SMSOrder) (t i : Int) (responses : List Json) (ht : t ≤ 0) :
    wait_for_code check order t i responses =
      some ({ order with status := RentStatus.timeout }, []) := by
  unfold wait_for_code
  exact waitLoop_stop check t i responses 0 order (by omega)

/-- Witness for C9: an order that is already Received with a non-empty code,
passed with timeout zero, comes back stamped Timeout with an empty trace even
though a code-bearing poll response was available. -/
theorem wait_nonpositive_timeout_witness :
    wait_for_code VakSMSProvider.check_sms
      { order_id := "7", phone_number := "555", country := "us", service := "tg",
        provider := ProviderType.vak_sms, status := RentStatus.received,
        sms_text := some "1234", sms_code := some "1234" } 0 5
      [Json.obj [("smsCode", Json.str "9999")]] =
      some ({ order_id := "7", phone_number := "555", country := "us", service := "tg",
              provider := ProviderType.vak_sms, status := RentStatus.timeout,
              sms_text := some "1234", sms_code := some "1234" }, []) :=
  wait_nonpositive_timeout VakSMSProvider.check_sms _ 0 5 _ (by omega)

/-- Claim C4 (confirmed): when the first check inside the loop yields an order
that is Received or carries a truthy code, the loop returns that updated order
at once: the trace is exactly one check, with no sleep, whatever the status
enum says. -/
theorem wait_first_hit (check : SMSOrder → Json → SMSOrder)
    (order : SMSOrder) (t i : Int) (r : Json) (rs : List Json)
    (ht : 0 < t)
    (hc : (check order r).status = RentStatus.received ∨
      smsCodeTruthy (check order r) = true) :
    wait_for_code check order t i (r :: rs) =
      some (check order r, [WaitEvent.check]) := by
  unfold wait_for_code
  rw [waitLoop_cons check t i r rs 0 order ht, if_pos hc]

/-- Witness for C4: Vak-SMS check on a code-bearing response makes the very
first poll return immediately with a single check event. -/
theorem wait_first_hit_witness :
    wait_for_code VakSMSProvider.check_sms
      { order_id := "9", phone_number := "7", country := "ru", service := "tg",
        provider := ProviderType.vak_sms } 1 5
      [Json.obj [("smsCode", Json.str "1234")]] =
      some (VakSMSProvider.check_sms
        { order_id := "9", phone_number := "7", country := "ru", service := "tg",
          provider := ProviderType.vak_sms }
        (Json.obj [("smsCode", Json.str "1234")]), [WaitEvent.check]) :=
  wait_first_hit VakSMSProvider.check_sms _ 1 5 _ [] (by omega) (Or.inl rfl)

/-- Claim C5 (confirmed): on a 5SIM check response with a non-empty sms list
and a status field other than FINISHED, the order receives the code and text
of the last list element and status Received. -/
theorem fivesim_check_last_element (order : SMSOrder) (resp : Json)
    (x : Json) (xs : List Json)
    (hsms : resp.get "sms" = some (Json.arr (x :: xs)))
    (hstatus : resp.get "status" ≠ some (Json.str "FINISHED")) :
    (FiveSimProvider.check_sms order resp).sms_code =
      (((x :: xs).getLast (List.cons_ne_nil x xs)).get "code").bind Json.asStr? ∧
    (FiveSimProvider.check_sms order resp).sms_text =
      (((x :: xs).getLast (List.cons_ne_nil x xs)).get "text").bind Json.asStr? ∧
    (FiveSimProvider.check_sms order resp).status = RentStatus.received := by
  have hmain : FiveSimProvider.check_sms order resp =
      { order with
        sms_text := (((x :: xs).getLast (List.cons_ne_nil x xs)).get "text").bind Json.asStr?,
        sms_code := (((x :: xs).getLast (List.cons_ne_nil x xs)).get "code").bind Json.asStr?,
        status := RentStatus.received } := by
    unfold FiveSimProvider.check_sms FiveSimProvider.sms_step
    rw [hsms]
    split
    · rename_i heq
      exact absurd heq hstatus
    · rfl
  rw [hmain]
  exact ⟨rfl, rfl, rfl⟩

/-- Witness for C5: the response with sms codes 111 then 222 and status
RUNNING yields code 222 and status Received. -/
theorem fivesim_check_last_element_witness :
    (FiveSimProvider.check_sms
      { order_id := "1", phone_number := "7", country := "ru", service := "tg",
        provider := ProviderType.five_sim }
      (Json.obj [("sms", Json.arr [Json.obj [("code", Json.str "111")],
                                   Json.obj [("code", Json.str "222")]]),
                 ("status", Json.str "RUNNING")])).sms_code = some "222" ∧
    (FiveSimProvider.check_sms
      { order_id := "1", phone_number := "7", country := "ru", service := "tg",
        provider := ProviderType.five_sim }
      (Json.obj [("sms", Json.arr [Json.obj [("code", Json.str "111")],
                                   Json.obj [("code", Json.str "222")]]),
                 ("status", Json.str "RUNNING")])).status = RentStatus.received := by
  have h := fivesim_check_last_element
    { order_id := "1", phone_number := "7", country := "ru", service := "tg",
      provider := ProviderType.five_sim }
    (Json.obj [("sms", Json.arr [Json.obj [("code", Json.str "111")],
                                 Json.obj [("code", Json.str "222")]]),
               ("status", Json.str "RUNNING")])
    (Json.obj [("code", Json.str "111")]) [Json.obj [("code", Json.str "222")]]
    rfl
    (by
      intro hcontra
      injection hcontra with h1
      injection h1 with h2
      exact absurd h2 (by decide))
  exact ⟨h.1, h.2.2⟩

/-- Claim C6 (confirmed): Vak-SMS rent responses without `idNum` map the
vendor error value to the typed taxonomy: `no_numbers` raises NoNumberError,
`no_balance` raises BalanceError, and any other or absent value raises the
generic request-error kind. -/
theorem vak_rent_error_mapping (c s : String) (d : Int) (now : Nat)
    (resp : Json) (hid : resp.get "idNum" = none) :
    (resp.get "error" = some (Json.str "no_numbers") →
      VakSMSProvider.rent_number c s d now resp =
        Except.error (PyErr.sms (SMSError.noNumberError "Vak-SMS: No numbers available"))) ∧
    (resp.get "error" = some (Json.str "no_balance") →
      VakSMSProvider.rent_number c s d now resp =
        Except.error (PyErr.sms (SMSError.balanceError "Vak-SMS: Insufficient balance"))) ∧
    (resp.get "error" = none →
      VakSMSProvider.rent_number c s d now resp =
        Except.error (PyErr.sms (SMSError.apiRequestError "Vak-SMS Error: Unknown error"))) ∧
    (∀ j, resp.get "error" = some j →
      j ≠ Json.str "no_numbers" → j ≠ Json.str "no_balance" →
      VakSMSProvider.rent_number c s d now resp =
        Except.error (PyErr.sms (SMSError.apiRequestError ("Vak-SMS Error: " ++ j.pyStr)))) := by
  refine ⟨?_, ?_, ?_, ?_⟩
  · intro h
    unfold VakSMSProvider.rent_number
    rw [hid, h]
    rfl
  · intro h
    unfold VakSMSProvider.rent_number
    rw [hid, h]
    rfl
  · intro h
    unfold VakSMSProvider.rent_number
    rw [hid, h]
    rfl
  · intro j hj h1 h2
    unfold VakSMSProvider.rent_number
    simp only [hid, hj, Option.getD_some]

/-- Witness for C6: the rent response consisting only of the no_balance error
raises the balance-insufficient kind, not the generic kind (shown for all
three mapped branches plus the absent-error default). -/
theorem vak_rent_error_mapping_witness :
    VakSMSProvider.rent_number "ru" "tg" 4 0 (Json.obj [("error", Json.str "no_balance")]) =
      Except.error (PyErr.sms (SMSError.balanceError "Vak-SMS: Insufficient balance")) ∧
    VakSMSProvider.rent_number "ru" "tg" 4 0 (Json.obj [("error", Json.str "no_numbers")]) =
      Except.error (PyErr.sms (SMSError.noNumberError "Vak-SMS: No numbers available")) ∧
    VakSMSProvider.rent_number "ru" "tg" 4 0 (Json.obj []) =
      Except.error (PyErr.sms (SMSError.apiRequestError "Vak-SMS Error: Unknown error")) :=
  ⟨(vak_rent_error_mapping "ru" "tg" 4 0
      (Json.obj [("error", Json.str "no_balance")]) rfl).2.1 rfl,
   (vak_rent_error_mapping "ru" "tg" 4 0
      (Json.obj [("error", Json.str "no_numbers")]) rfl).1 rfl,
   (vak_rent_error_mapping "ru" "tg" 4 0 (Json.obj []) rfl).2.2.1 rfl⟩

/-- Counterexample to C1 as stated: an SMS-Man rent response with no
`error_code` marker and no `request_id` raises a plain `KeyError`, which is
not an error of the SMS taxonomy (so rent failures on a missing success key
are not always typed). -/
theorem rent_missing_key_counterexample :
    SMSManProvider.rent_number "3" "1" 4 0 (Json.obj []) =
      Except.error (PyErr.keyError "request_id") ∧
    ∀ e : SMSError, (Except.error (PyErr.keyError "request_id") :
      Except PyErr SMSOrder) ≠ Except.error (PyErr.sms e) := by
  refine ⟨rfl, ?_⟩
  intro e
  simp

/-- Claim C1 (corrected): a rent response missing the required success key
never yields an order for any adapter; 5SIM (missing `id`) and Vak-SMS
(missing `idNum`) raise typed errors of the SMS taxonomy, while SMS-Man with
no `error_code` marker (missing `request_id` or `number`) and Vak-SMS with
`idNum` present but `tel` missing instead raise a plain Python `KeyError`. -/
theorem rent_missing_key_amended (c s : String) (d : Int) (now : Nat)
    (resp resp2 resp3 : Json)
    (h0 : resp.get "error_code" = none)
    (h1 : resp.get "request_id" = none)
    (h2 : resp.get "id" = none)
    (h3 : resp.get "idNum" = none)
    (h4 : resp2.get "error_code" = none)
    (h5 : (resp2.get "request_id").isSome = true)
    (h6 : resp2.get "number" = none)
    (h7 : (resp3.get "idNum").isSome = true)
    (h8 : resp3.get "tel" = none) :
    SMSManProvider.rent_number c s d now resp = Except.error (PyErr.keyError "request_id") ∧
    FiveSimProvider.rent_number c s d now resp =
      Except.error (PyErr.sms (SMSError.apiRequestError ("5SIM Failed: " ++ resp.pyStr))) ∧
    (∃ e : SMSError, VakSMSProvider.rent_number c s d now resp =
      Except.error (PyErr.sms e)) ∧
    SMSManProvider.rent_number c s d now resp2 = Except.error (PyErr.keyError "number") ∧
    VakSMSProvider.rent_number c s d now resp3 = Except.error (PyErr.keyError "tel") := by
  refine ⟨?_, ?_, ?_, ?_, ?_⟩
  · unfold SMSManProvider.rent_number
    rw [if_neg (by simp [h0]), h1]
  · unfold FiveSimProvider.rent_number
    rw [h2]
  · unfold VakSMSProvider.rent_number
    simp only [h3]
    split
    · exact ⟨_, rfl⟩
    · exact ⟨_, rfl⟩
    · exact ⟨_, rfl⟩
  · unfold SMSManProvider.rent_number
    obtain ⟨rid, hrid⟩ := Option.isSome_iff_exists.mp h5
    rw [if_neg (by simp [h4]), hrid, h6]
  · unfold VakSMSProvider.rent_number
    obtain ⟨idn, hidn⟩ := Option.isSome_iff_exists.mp h7
    rw [hidn, h8]

/-- Witness for C1 (amended): concrete responses exercising every hypothesis:
the empty object for the three missing-key cases, a response with only
`request_id` for the SMS-Man missing-number case, and a response with only
`idNum` for the Vak-SMS missing-tel case. -/
theorem rent_missing_key_amended_witness :
    SMSManProvider.rent_number "3" "1" 4 0 (Json.obj []) =
      Except.error (PyErr.keyError "request_id") ∧
    FiveSimProvider.rent_number "3" "1" 4 0 (Json.obj []) =
      Except.error (PyErr.sms (SMSError.apiRequestError
        ("5SIM Failed: " ++ (Json.obj []).pyStr))) ∧
    (∃ e : SMSError, VakSMSProvider.rent_number "3" "1" 4 0 (Json.obj []) =
      Except.error (PyErr.sms e)) ∧
    SMSManProvider.rent_number "3" "1" 4 0 (Json.obj [("request_id", Json.num 12345)]) =
      Except.error (PyErr.keyError "number") ∧
    VakSMSProvider.rent_number "3" "1" 4 0 (Json.obj [("idNum", Json.num 9)]) =
      Except.error (PyErr.keyError "tel") :=
  rent_missing_key_amended "3" "1" 4 0 (Json.obj [])
    (Json.obj [("request_id", Json.num 12345)]) (Json.obj [("idNum", Json.num 9)])
    rfl rfl rfl rfl rfl rfl rfl rfl rfl

/-- Counterexample to C7 as stated: a 5SIM check response whose sms list is
empty (no new message) but whose status field is FINISHED changes the order
status from Waiting to Finished, so the status field is not always left
unchanged. -/
theorem check_frame_counterexample :
    (FiveSimProvider.check_sms
      { order_id := "1", phone_number := "7", country := "ru", service := "tg",
        provider := ProviderType.five_sim }
      (Json.obj [("sms", Json.arr []), ("status", Json.str "FINISHED")])).status =
      RentStatus.finished ∧
    ({ order_id := "1", phone_number := "7", country := "ru", service := "tg",
       provider := ProviderType.five_sim } : SMSOrder).status = RentStatus.waiting :=
  ⟨rfl, rfl⟩

/-- Claim C7 (corrected): on a check response carrying no new message, all
three adapters leave `sms_code` and `sms_text` unchanged; SMS-Man and Vak-SMS
also leave the status unchanged, and 5SIM leaves it unchanged except that a
FINISHED vendor status still forces the order status to Finished. -/
theorem check_no_message_frame (o : SMSOrder) (respF respV : Json)
    (h5 : respF.get "sms" = none ∨ respF.get "sms" = some (Json.arr []))
    (hv : respV.get "smsCode" = none ∨ respV.get "smsCode" = some (Json.str "")) :
    SMSManProvider.check_sms o (Json.arr []) = o ∧
    (FiveSimProvider.check_sms o respF).sms_code = o.sms_code ∧
    (FiveSimProvider.check_sms o respF).sms_text = o.sms_text ∧
    (respF.get "status" ≠ some (Json.str "FINISHED") →
      FiveSimProvider.check_sms o respF = o) ∧
    (respF.get "status" = some (Json.str "FINISHED") →
      FiveSimProvider.check_sms o respF = { o with status := RentStatus.finished }) ∧
    VakSMSProvider.check_sms o respV = o := by
  have hstep : FiveSimProvider.sms_step o respF = o := by
    unfold FiveSimProvider.sms_step
    rcases h5 with h | h <;> rw [h] <;> rfl
  have key : FiveSimProvider.check_sms o respF =
      (match respF.get "status" with
       | some (Json.str "FINISHED") => { o with status := RentStatus.finished }
       | _ => o) := by
    unfold FiveSimProvider.check_sms
    rw [hstep]
  refine ⟨rfl, ?_, ?_, ?_, ?_, ?_⟩
  · rw [key]
    split <;> rfl
  · rw [key]
    split <;> rfl
  · intro h
    rw [key]
    split
    · rename_i heq
      exact absurd heq h
    · rfl
  · intro h
    rw [key, h]
    rfl
  · unfold VakSMSProvider.check_sms
    rcases hv with h | h <;> rw [h] <;> rfl

/-- Witness for C7 (amended): an absent sms list with no status field (5SIM),
an empty SMS-Man list, and an absent smsCode (Vak-SMS) all leave a concrete
order fully unchanged. -/
theorem check_no_message_frame_witness :
    SMSManProvider.check_sms
      { order_id := "5", phone_number := "123", country := "us", service := "go",
        provider := ProviderType.sms_man, status := RentStatus.received,
        sms_text := some "code 42", sms_code := some "42" } (Json.arr []) =
      { order_id := "5", phone_number := "123", country := "us", service := "go",
        provider := ProviderType.sms_man, status := RentStatus.received,
        sms_text := some "code 42", sms_code := some "42" } ∧
    FiveSimProvider.check_sms
      { order_id := "5", phone_number := "123", country := "us", service := "go",
        provider := ProviderType.sms_man, status := RentStatus.received,
        sms_text := some "code 42", sms_code := some "42" }
      (Json.obj [("sms", Json.arr [])]) =
      { order_id := "5", phone_number := "123", country := "us", service := "go",
        provider := ProviderType.sms_man, status := RentStatus.received,
        sms_text := some "code 42", sms_code := some "42" } ∧
    VakSMSProvider.check_sms
      { order_id := "5", phone_number := "123", country := "us", service := "go",
        provider := ProviderType.sms_man, status := RentStatus.received,
        sms_text := some "code 42", sms_code := some "42" } (Json.obj []) =
      { order_id := "5", phone_number := "123", country := "us", service := "go",
        provider := ProviderType.sms_man, status := RentStatus.received,
        sms_text := some "code 42", sms_code := some "42" } := by
  have h := check_no_message_frame
    { order_id := "5", phone_number := "123", country := "us", service := "go",
      provider := ProviderType.sms_man, status := RentStatus.received,
      sms_text := some "code 42", sms_code := some "42" }
    (Json.obj [("sms", Json.arr [])]) (Json.obj [])
    (Or.inr rfl) (Or.inl rfl)
  exact ⟨h.1, h.2.2.2.1 (fun hc => Option.noConfusion hc), h.2.2.2.2.2⟩

/-- A successful SMS-Man rent yields a fresh order: no code, status Waiting. -/
theorem rent_ok_fresh_smsMan {c s : String} {d : Int} {now : Nat} {resp : Json}
    {o : SMSOrder} (h : SMSManProvider.rent_number c s d now resp = Except.ok o) :
    o.sms_code = none ∧ o.status = RentStatus.waiting := by
  unfold SMSManProvider.rent_number at h
  split at h
  · simp at h
  · split at h
    · simp at h
    · split at h
      · simp at h
      · injection h with h2
        subst h2
        exact ⟨rfl, rfl⟩

/-- A successful 5SIM rent yields a fresh order: no code, status Waiting. -/
theorem rent_ok_fresh_fiveSim {c s : String} {d : Int} {now : Nat} {resp : Json}
    {o : SMSOrder} (h : FiveSimProvider.rent_number c s d now resp = Except.ok o) :
    o.sms_code = none ∧ o.status = RentStatus.waiting := by
  unfold FiveSimProvider.rent_number at h
  split at h
  · simp at h
  · split at h
    · simp at h
    · injection h with h2
      subst h2
      exact ⟨rfl, rfl⟩

/-- A successful Vak-SMS rent yields a fresh order: no code, status Waiting. -/
theorem rent_ok_fresh_vakSms {c s : String} {d : Int} {now : Nat} {resp : Json}
    {o : SMSOrder} (h : VakSMSProvider.rent_number c s d now resp = Except.ok o) :
    o.sms_code = none ∧ o.status = RentStatus.waiting := by
  unfold VakSMSProvider.rent_number at h
  split at h
  · split at h <;> simp at h
  · split at h
    · simp at h
    · injection h with h2
      subst h2
      exact ⟨rfl, rfl⟩

/-- An SMS-Man check either leaves the order unchanged or marks it Received. -/
theorem check_cases_smsMan (o : SMSOrder) (resp : Json) :
    SMSManProvider.check_sms o resp = o ∨
    (SMSManProvider.check_sms o resp).status = RentStatus.received := by
  unfold SMSManProvider.check_sms
  split
  · right
    rfl
  · left
    rfl

/-- The 5SIM sms step either leaves the order unchanged or marks it Received. -/
theorem sms_step_cases_fiveSim (o : SMSOrder) (resp : Json) :
    FiveSimProvider.sms_step o resp = o ∨
    (FiveSimProvider.sms_step o resp).status = RentStatus.received := by
  unfold FiveSimProvider.sms_step
  split
  · right
    rfl
  · left
    rfl

/-- A 5SIM check either leaves the order unchanged or marks it Received or
Finished. -/
theorem check_cases_fiveSim (o : SMSOrder) (resp : Json) :
    FiveSimProvider.check_sms o resp = o ∨
    (FiveSimProvider.check_sms o resp).status = RentStatus.received ∨
    (FiveSimProvider.check_sms o resp).status = RentStatus.finished := by
  unfold FiveSimProvider.check_sms
  split
  · right
    right
    rfl
  · rcases sms_step_cases_fiveSim o resp with h | h
    · left
      exact h
    · right
      left
      exact h

/-- A Vak-SMS check either leaves the order unchanged or marks it Received. -/
theorem check_cases_vakSms (o : SMSOrder) (resp : Json) :
    VakSMSProvider.check_sms o resp = o ∨
    (VakSMSProvider.check_sms o resp).status = RentStatus.received := by
  unfold VakSMSProvider.check_sms
  split
  · split
    · right
      rfl
    · left
      rfl
  · left
    rfl

/-- Claim C2 (corrected): for every order reachable through the public
operations, a non-empty `sms_code` implies the status is Received, Finished,
or Timeout (not necessarily Received: 5SIM can stamp Finished over a captured
code, and a non-positive-timeout wait stamps Timeout without erasing one). -/
theorem code_implies_terminal_status (o : SMSOrder) (h : Reachable o) :
    smsCodeTruthy o = true →
    o.status = RentStatus.received ∨ o.status = RentStatus.finished ∨
      o.status = RentStatus.timeout := by
  induction h with
  | rentSmsMan c s d now resp o h =>
    intro hc
    rw [smsCodeTruthy, (rent_ok_fresh_smsMan h).1] at hc
    cases hc
  | rentFiveSim c s d now resp o h =>
    intro hc
    rw [smsCodeTruthy, (rent_ok_fresh_fiveSim h).1] at hc
    cases hc
  | rentVakSms c s d now resp o h =>
    intro hc
    rw [smsCodeTruthy, (rent_ok_fresh_vakSms h).1] at hc
    cases hc
  | checkSmsMan resp o h ih =>
    intro hc
    rcases check_cases_smsMan o resp with he | hs
    · rw [he] at hc ⊢
      exact ih hc
    · exact Or.inl hs
  | checkFiveSim resp o h ih =>
    intro hc
    rcases check_cases_fiveSim o resp with he | hs | hf
    · rw [he] at hc ⊢
      exact ih hc
    · exact Or.inl hs
    · exact Or.inr (Or.inl hf)
  | checkVakSms resp o h ih =>
    intro hc
    rcases check_cases_vakSms o resp with he | hs
    · rw [he] at hc ⊢
      exact ih hc
    · exact Or.inl hs
  | waitTimeout o h ih =>
    intro hc
    exact Or.inr (Or.inr rfl)

/-- Counterexample to C2 as stated: an order reachable by a 5SIM rent followed
by a 5SIM check on a response carrying both a code and vendor status FINISHED
has a non-empty code but status Finished, not Received. -/
theorem code_implies_terminal_status_counterexample :
    ∃ o : SMSOrder, Reachable o ∧ smsCodeTruthy o = true ∧
      o.status ≠ RentStatus.received := by
  refine ⟨FiveSimProvider.check_sms
    { order_id := "1", phone_number := "79", country := "ru", service := "tg",
      provider := ProviderType.five_sim }
    (Json.obj [("sms", Json.arr [Json.obj [("code", Json.str "222")]]),
               ("status", Json.str "FINISHED")]), ?_, rfl, by decide⟩
  exact Reachable.checkFiveSim _ _
    (Reachable.rentFiveSim "ru" "tg" 4 0
      (Json.obj [("id", Json.num 1), ("phone", Json.str "79")]) _ rfl)

/-- Witness for C2 (amended): a concrete reachable order with a non-empty code
(Vak-SMS rent then check on a code-bearing response), to which the theorem
applies with every hypothesis discharged. -/
theorem code_implies_terminal_status_witness :
    ∃ o : SMSOrder, Reachable o ∧ smsCodeTruthy o = true ∧
      (o.status = RentStatus.received ∨ o.status = RentStatus.finished ∨
        o.status = RentStatus.timeout) := by
  have reach : Reachable (VakSMSProvider.check_sms
      { order_id := "123", phone_number := "79", country := "ru", service := "tg",
        provider := ProviderType.vak_sms }
      (Json.obj [("smsCode", Json.str "4512")])) :=
    Reachable.checkVakSms _ _
      (Reachable.rentVakSms "ru" "tg" 4 0
        (Json.obj [("idNum", Json.str "123"), ("tel", Json.str "79")]) _ rfl)
  exact ⟨_, reach, rfl, code_implies_terminal_status _ reach rfl⟩

/-- Helper for C3: from any elapsed point, when every supplied response keeps
the order Waiting with no code, the loop reaches its deadline and stamps
Timeout with no code and no cancel event (given enough stubbed responses). -/
theorem waitLoop_times_out (check : SMSOrder → Json → SMSOrder) (t i : Int) :
    ∀ (responses : List Json) (elapsed : Int) (order : SMSOrder),
      (∀ o r, r ∈ responses → o.status = RentStatus.waiting → o.sms_code = none →
        (check o r).status = RentStatus.waiting ∧ (check o r).sms_code = none) →
      order.status = RentStatus.waiting → order.sms_code = none →
      t ≤ elapsed + i * responses.length →
      ∃ o2 tr, waitLoop check t i responses elapsed order = some (o2, tr) ∧
        o2.status = RentStatus.timeout ∧ o2.sms_code = none ∧
        WaitEvent.cancel ∉ tr := by
  intro responses
  induction responses with
  | nil =>
    intro elapsed order hstub hs hc htime
    refine ⟨{ order with status := RentStatus.timeout }, [], ?_, rfl, hc, by simp⟩
    exact waitLoop_stop check t i [] elapsed order (by simp at htime; omega)
  | cons r rs ih =>
    intro elapsed order hstub hs hc htime
    by_cases helapsed : elapsed < t
    · have hcr := hstub order r (by simp) hs hc
      have hlen : elapsed + i * (((r :: rs).length : Nat) : Int) =
          (elapsed + i) + i * ((rs.length : Nat) : Int) := by
        simp only [List.length_cons]
        push_cast
        ring
      obtain ⟨o2, tr, heq, hst, hco, hmem⟩ := ih (elapsed + i) (check order r)
        (fun o rr hrr => hstub o rr (List.mem_cons_of_mem r hrr))
        hcr.1 hcr.2 (by rw [hlen] at htime; exact htime)
      have hnot : ¬((check order r).status = RentStatus.received ∨
          smsCodeTruthy (check order r) = true) := by
        rintro (hcontra | hcontra)
        · rw [hcr.1] at hcontra
          exact RentStatus.noConfusion hcontra
        · simp [smsCodeTruthy, hcr.2] at hcontra
      refine ⟨o2, WaitEvent.check :: WaitEvent.sleep :: tr, ?_, hst, hco, ?_⟩
      · rw [waitLoop_cons check t i r rs elapsed order helapsed, if_neg hnot, heq]
      · simp only [List.mem_cons]
        rintro (hcontra | hcontra | hcontra)
        · exact WaitEvent.noConfusion hcontra
        · exact WaitEvent.noConfusion hcontra
        · exact hmem hcontra
    · refine ⟨{ order with status := RentStatus.timeout }, [], ?_, rfl, hc, by simp⟩
      exact waitLoop_stop check t i (r :: rs) elapsed order helapsed

/-- Claim C3 (confirmed): when every poll keeps the order Waiting with no
code, `wait_for_code` returns normally once the deadline passes, with status
forced to Timeout, no code, and no cancel event in the trace. -/
theorem wait_always_waiting_times_out (check : SMSOrder → Json → SMSOrder)
    (order : SMSOrder) (t i : Int) (responses : List Json)
    (hstub : ∀ o r, r ∈ responses → o.status = RentStatus.waiting →
      o.sms_code = none →
      (check o r).status = RentStatus.waiting ∧ (check o r).sms_code = none)
    (hs : order.status = RentStatus.waiting) (hc : order.sms_code = none)
    (htime : t ≤ i * responses.length) :
    ∃ o2 tr, wait_for_code check order t i responses = some (o2, tr) ∧
      o2.status = RentStatus.timeout ∧ o2.sms_code = none ∧
      WaitEvent.cancel ∉ tr :=
  waitLoop_times_out check t i responses 0 order hstub hs hc (by simpa using htime)

/-- Witness for C3: the 5SIM adapter polled once per unit with an empty
response and a one-unit deadline times out with no code and no cancel. -/
theorem wait_always_waiting_times_out_witness :
    ∃ o2 tr, wait_for_code FiveSimProvider.check_sms
      { order_id := "1", phone_number := "7", country := "ru", service := "tg",
        provider := ProviderType.five_sim } 1 1 [Json.obj []] = some (o2, tr) ∧
      o2.status = RentStatus.timeout ∧ o2.sms_code = none ∧
      WaitEvent.cancel ∉ tr :=
  wait_always_waiting_times_out FiveSimProvider.check_sms _ 1 1 _
    (by
      intro o r hr hs hc
      simp only [List.mem_singleton] at hr
      subst hr
      exact ⟨hs, hc⟩)
    rfl rfl (by norm_num)

/-- The polling loop only produces reachable orders: over a
reachability-preserving check function, every successful `waitLoop` run maps a
reachable input order to a reachable final order (so the `Reachable` relation
covers everything `wait_for_code` can return). -/
theorem waitLoop_preserves_reachable (check : SMSOrder → Json → SMSOrder)
    (t i : Int) (hcheck : ∀ o r, Reachable o → Reachable (check o r)) :
    ∀ (responses : List Json) (elapsed : Int) (o : SMSOrder), Reachable o →
      ∀ o2 tr, waitLoop check t i responses elapsed o = some (o2, tr) →
        Reachable o2 := by
  intro responses
  induction responses with
  | nil =>
    intro elapsed o ho o2 tr heq
    by_cases h : elapsed < t
    · simp only [waitLoop] at heq
      rw [if_pos h] at heq
      exact Option.noConfusion heq
    · rw [waitLoop_stop check t i [] elapsed o h] at heq
      simp only [Option.some.injEq, Prod.mk.injEq] at heq
      rw [← heq.1]
      exact Reachable.waitTimeout o ho
  | cons r rs ih =>
    intro elapsed o ho o2 tr heq
    by_cases h : elapsed < t
    · rw [waitLoop_cons check t i r rs elapsed o h] at heq
      by_cases hcond : (check o r).status = RentStatus.received ∨
          smsCodeTruthy (check o r) = true
      · rw [if_pos hcond] at heq
        simp only [Option.some.injEq, Prod.mk.injEq] at heq
        rw [← heq.1]
        exact hcheck o r ho
      · rw [if_neg hcond] at heq
        cases hw : waitLoop check t i rs (elapsed + i) (check o r) with
        | none =>
          rw [hw] at heq
          simp at heq
        | some p =>
          rw [hw] at heq
          obtain ⟨a, b⟩ := p
          simp only [Option.some.injEq, Prod.mk.injEq] at heq
          rw [← heq.1]
          exact ih (elapsed + i) (check o r) (hcheck o r ho) a b hw
    · rw [waitLoop_stop check t i (r :: rs) elapsed o h] at heq
      simp only [Option.some.injEq, Prod.mk.injEq] at heq
      rw [← heq.1]
      exact Reachable.waitTimeout o ho
